import Mathlib

/- Verification of the recursion proof-composition layer of the risc0 zkVM
   (risc0/zkvm/src/host/recursion/prove/mod.rs).

   The composition operations (lift, join, resolve, identity_p254) and the
   Prover builder are translated from the source.  The supporting data model
   (digests, MaybePruned, ReceiptClaim, the Merkle registry, the opaque
   proof-system run) lives outside the sources at hand and is modelled from
   the specification; every such definition is marked `Modelled from the
   spec:`.  The opaque proof-system boundary `run(program, input_tape)` is
   passed to each operation as an oracle argument.  Rust panics (out of
   bounds, unwrap of None) are modelled as the distinguished error `Abort`. -/

namespace Risc0

/-- Modelled from the spec: a Digest is a fixed-size cryptographic hash output
whose equality is byte-exact; it is modelled as a natural number. -/
abbrev Digest := Nat

/-- Injective pairing on naturals, the basis of the model hash functions. -/
def pairN (a b : Nat) : Nat := (a + b) * (a + b + 1) / 2 + b

/-- Tagged pairing, used to separate the hash domains of the model. -/
def tagN (t x : Nat) : Nat := pairN t x + 1

/-- Modelled from the spec: the two-to-one hash combining Merkle tree nodes. -/
def hash2 (a b : Digest) : Digest := tagN 40 (pairN a b)

/-- Model digest of a list of words (journal bytes and the like). -/
def listDigest : List Nat → Digest
  | [] => 0
  | x :: t => tagN 41 (pairN x (listDigest t))

/-- Error taxonomy from the spec (section 7).  `Abort` models a Rust panic,
which is not any of the spec's error values. -/
inductive RErr where
  | ConfigurationError
  | RootMismatch
  | PrunedFieldError
  | EmptyAssumptionError
  | AssumptionMismatchError
  | ExecutionFault
  | DecodeError
  | ClaimMergeError
  | Abort
deriving DecidableEq

/-- Types carrying a model digest. -/
class Digestible (α : Type) where
  digest : α → Digest

/-- Modelled from the spec: a tagged union, either a fully materialized value
or a redacted value of which only the digest is retained. -/
inductive MaybePruned (α : Type) where
  | Value : α → MaybePruned α
  | Pruned : Digest → MaybePruned α
deriving DecidableEq

/-- Modelled from the spec: both states expose the same digest operation. -/
def MaybePruned.digest {α : Type} [Digestible α] : MaybePruned α → Digest
  | .Value v => Digestible.digest v
  | .Pruned d => d

/-- Modelled from the spec: as_value fails with PrunedFieldError if redacted. -/
def MaybePruned.as_value {α : Type} : MaybePruned α → Except RErr α
  | .Value v => .ok v
  | .Pruned _ => .error .PrunedFieldError

/-- Modelled from the spec: merge reconciles a possibly-redacted value with an
independently obtained one; it succeeds only if the digests agree (pruned
cases) or the values agree structurally, else ClaimMergeError. -/
def MaybePruned.merge {α : Type} [DecidableEq α] [Digestible α] :
    MaybePruned α → MaybePruned α → Except RErr (MaybePruned α)
  | .Value v, .Value w => if v = w then .ok (.Value v) else .error .ClaimMergeError
  | .Value v, .Pruned d => if Digestible.digest v = d then .ok (.Value v) else .error .ClaimMergeError
  | .Pruned d, .Value w => if d = Digestible.digest w then .ok (.Value w) else .error .ClaimMergeError
  | .Pruned d, .Pruned e => if d = e then .ok (.Pruned d) else .error .ClaimMergeError

/-- Modelled from the spec: the state of the machine before or after a span of
execution, with a program counter and a memory commitment. -/
structure SystemState where
  pc : Nat
  merkle_root : Digest
deriving DecidableEq

instance : Digestible SystemState := ⟨fun s => tagN 1 (pairN s.pc s.merkle_root)⟩

/-- Modelled from the spec: the claim input placeholder; it has no
materialized values, so an input field is always carried as a digest. -/
inductive Input where

instance : DecidableEq Input := fun a => nomatch a

instance : Digestible Input := ⟨fun a => nomatch a⟩

/-- Modelled from the spec: exit codes compare by plain equality. -/
abbrev ExitCode := Nat

/-- Modelled from the spec: an Assumption identifies a dependency by the
digest of its claim and the Merkle root of the control-id set that must vouch
for it; control_root zero is the "same root as the depending receipt"
sentinel. -/
structure Assumption where
  claim : Digest
  control_root : Digest
deriving DecidableEq

instance : Digestible Assumption := ⟨fun a => tagN 4 (pairN a.claim a.control_root)⟩

/-- Modelled from the spec: the ordered (FIFO) list of assumptions. -/
structure Assumptions where
  list : List (MaybePruned Assumption)
deriving DecidableEq

/-- Modelled from the spec: the digest of the empty assumptions list is a
fixed constant. -/
def EMPTY_ASSUMPTIONS_DIGEST : Digest := tagN 6 0

/-- Modelled from the spec: the digest of a non-empty assumptions list folds
over the elements in order. -/
def Assumptions.digest (a : Assumptions) : Digest :=
  a.list.foldr (fun x acc => tagN 5 (pairN (MaybePruned.digest x) acc)) EMPTY_ASSUMPTIONS_DIGEST

instance : Digestible Assumptions := ⟨Assumptions.digest⟩

instance : Digestible (List Nat) := ⟨listDigest⟩

/-- Modelled from the spec: the committed public output of a program, a
journal plus the ordered list of unresolved assumptions. -/
structure Output where
  journal : MaybePruned (List Nat)
  assumptions : MaybePruned Assumptions
deriving DecidableEq

def Output.digest (o : Output) : Digest :=
  tagN 7 (pairN (MaybePruned.digest o.journal) (MaybePruned.digest o.assumptions))

instance : Digestible Output := ⟨Output.digest⟩

instance : Digestible (Option Output) :=
  ⟨fun o => match o with
    | none => 0
    | some v => Output.digest v⟩

/-- Modelled from the spec: the statement a receipt attests to — running the
program from `pre` with `input` ends in `post` with `exit_code` and
`output`. -/
structure ReceiptClaim where
  pre : MaybePruned SystemState
  post : MaybePruned SystemState
  exit_code : ExitCode
  input : MaybePruned Input
  output : MaybePruned (Option Output)
deriving DecidableEq

def ReceiptClaim.digest (c : ReceiptClaim) : Digest :=
  tagN 8 (pairN (MaybePruned.digest c.input)
    (pairN (MaybePruned.digest c.pre)
      (pairN (MaybePruned.digest c.post)
        (pairN c.exit_code (MaybePruned.digest c.output)))))

instance : Digestible ReceiptClaim := ⟨ReceiptClaim.digest⟩

/-- Modelled from the spec: encode writes the fixed machine-word layout a
verification circuit reads; it needs the system states materialized and
carries input and output as digests. -/
def ReceiptClaim.encode (c : ReceiptClaim) : Except RErr (List Nat) := do
  let p ← c.pre.as_value
  let q ← c.post.as_value
  return [MaybePruned.digest c.input, p.pc, p.merkle_root, q.pc, q.merkle_root,
          c.exit_code, MaybePruned.digest c.output]

/-- Modelled from the spec: decode reads the same fixed layout back from the
front of an output stream, failing with DecodeError if the stream is short;
the system states come back materialized, input and output as digests. -/
def ReceiptClaim.decode (s : List Nat) : Except RErr ReceiptClaim :=
  match s with
  | input_d :: ppc :: pmr :: qpc :: qmr :: ec :: out_d :: _rest =>
    .ok { pre := .Value ⟨ppc, pmr⟩, post := .Value ⟨qpc, qmr⟩, exit_code := ec,
          input := .Pruned input_d, output := .Pruned out_d }
  | _ => .error .DecodeError

/-- Modelled from the spec: merging two claims requires agreement on all
shared fields, merging field-wise and failing with ClaimMergeError on any
disagreement. -/
def ReceiptClaim.merge (self other : ReceiptClaim) : Except RErr ReceiptClaim := do
  let pre ← self.pre.merge other.pre
  let post ← self.post.merge other.post
  let input ← self.input.merge other.input
  let output ← self.output.merge other.output
  if self.exit_code = other.exit_code then
    return { pre := pre, post := post, exit_code := self.exit_code,
             input := input, output := output }
  else .error .ClaimMergeError

/-- Modelled from the spec: resolve(head_digest) on an assumptions list
removes the first element only if its digest equals head_digest, else
fails; this is the sole mutation of an assumptions list. -/
def Assumptions.resolveHead (a : Assumptions) (head_digest : Digest) : Except RErr Assumptions :=
  match a.list with
  | [] => .error .EmptyAssumptionError
  | h :: t =>
    if MaybePruned.digest h = head_digest then .ok ⟨t⟩ else .error .AssumptionMismatchError

/-- Modelled from the spec: an inclusion proof is an index plus the ordered
sibling digests. -/
structure MerkleProof where
  index : Nat
  digests : List Digest
deriving DecidableEq

/-- Fold the sibling digests into a running hash, branching left or right by
the successive bits of the index. -/
def rootLoop : List Digest → Digest → Nat → Digest
  | [], cur, _ => cur
  | s :: rest, cur, i =>
    rootLoop rest (if i % 2 = 1 then hash2 s cur else hash2 cur s) (i / 2)

/-- Modelled from the spec: recompute the root committed by a proof from the
claimed leaf. -/
def MerkleProof.rootFor (p : MerkleProof) (leaf : Digest) : Digest :=
  rootLoop p.digests leaf p.index

/-- Modelled from the spec: a committed, ordered set of control ids. -/
structure MerkleGroup where
  leaves : List Digest
deriving DecidableEq

/-- Smallest d with n ≤ 2 ^ d (for the sizes arising here). -/
def ceilLog2 (n : Nat) : Nat := ((List.range 64).find? (fun d => n ≤ 2 ^ d)).getD 64

/-- Zero-pad the leaves out to a full power-of-two layer. -/
def padLeaves (l : List Digest) : List Digest :=
  l ++ List.replicate (2 ^ ceilLog2 l.length - l.length) 0

/-- Combine adjacent pairs of one Merkle layer into the next. -/
def merkleLayer : List Digest → List Digest
  | a :: b :: rest => hash2 a b :: merkleLayer rest
  | l => l

/-- Root of a padded layer after the given number of levels. -/
def rootOfLevels : Nat → List Digest → Digest
  | 0, l => l.headD 0
  | d + 1, l => rootOfLevels d (merkleLayer l)

/-- Modelled from the spec: the Merkle root over the ids as leaves. -/
def MerkleGroup.calc_root (g : MerkleGroup) : Digest :=
  rootOfLevels (ceilLog2 g.leaves.length) (padLeaves g.leaves)

/-- Sibling digests along the path of the given leaf position. -/
def sibsLoop : Nat → List Digest → Nat → List Digest
  | 0, _, _ => []
  | d + 1, l, i => l.getD (i ^^^ 1) 0 :: sibsLoop d (merkleLayer l) (i / 2)

/-- Modelled from the spec: build a committed set from an ordered sequence of
control ids. -/
def MerkleGroup.new (ids : List Digest) : Except RErr MerkleGroup :=
  if ids.isEmpty then .error .ConfigurationError else .ok ⟨ids⟩

/-- Modelled from the spec: the inclusion proof for a member id, failing if
the id is absent from the group. -/
def MerkleGroup.get_proof (g : MerkleGroup) (id : Digest) : Except RErr MerkleProof :=
  match g.leaves.findIdx? (fun x => x == id) with
  | some i => .ok ⟨i, sibsLoop (ceilLog2 g.leaves.length) (padLeaves g.leaves) i⟩
  | none => .error .ConfigurationError

/-- Modelled from the spec: the hash suites the host can name. -/
def hashfnSupported (s : String) : Bool :=
  (s == "sha-256") || (s == "poseidon2") || (s == "poseidon_254")

/-- Modelled from the spec: the portable composed-proof artifact. -/
structure SuccinctReceipt (C : Type) where
  sealData : List Nat
  hashfn : String
  control_id : Digest
  control_inclusion_proof : MerkleProof
  claim : MaybePruned C
  verifier_parameters : Digest
deriving DecidableEq

/-- Modelled from the spec: the control root a receipt was proved against,
recomputed from its inclusion proof and control id under its hash suite. -/
def SuccinctReceipt.control_root {C : Type} (r : SuccinctReceipt C) : Except RErr Digest :=
  if hashfnSupported r.hashfn then
    .ok (r.control_inclusion_proof.rootFor r.control_id)
  else .error .ConfigurationError

/-- Modelled from the spec: an externally produced proof of one bounded
execution span of the rv32im circuit. -/
structure SegmentReceipt where
  sealData : List Nat
  hashfn : String
  claim : ReceiptClaim
deriving DecidableEq

/-- Modelled from the spec: fixed proof-system info constant. -/
def PROOF_SYSTEM_INFO : Nat := 101

/-- Modelled from the spec: fixed recursion-circuit info constant. -/
def CIRCUIT_INFO : Nat := 102

/-- Modelled from the spec: the record bound into verifier_parameters —
control root, optional inner control root, and the fixed info constants. -/
structure SuccinctReceiptVerifierParameters where
  control_root : Digest
  inner_control_root : Option Digest
  proof_system_info : Nat
  circuit_info : Nat
deriving DecidableEq

/-- Encoding of the optional inner control root into the digest. -/
def optRootEnc : Option Digest → Nat
  | none => pairN 0 0
  | some d => pairN 1 d

/-- Modelled from the spec: verifier parameters bind by digesting the record's
fields. -/
def SuccinctReceiptVerifierParameters.digest (p : SuccinctReceiptVerifierParameters) : Digest :=
  tagN 9 (pairN p.control_root
    (pairN (optRootEnc p.inner_control_root) (pairN p.proof_system_info p.circuit_info)))

/-- Modelled from the spec: po2 is the log2 cycle count of a segment; this is
the smallest supported value (risc0_zkp MIN_CYCLES_PO2). -/
def MIN_CYCLES_PO2 : Nat := 13

/-- Number of supported po2 segment sizes in the catalog model. -/
def NUM_PO2S : Nat := 12

/-- Modelled from the spec: the fixed offset of the rv32im output region in a
segment seal (rv32im CircuitImpl OUTPUT_SIZE); the po2 word follows it. -/
def OUTPUT_SIZE : Nat := 138

/-- Modelled from the spec: an opaque recursion program, addressed by
identity. -/
abbrev Program := Nat

/-- Model identity of the lift(po2) program variant. -/
def zkrLiftProgram (po2 : Nat) : Program := tagN 30 po2

/-- Model identity of the join program. -/
def zkrJoinProgram : Program := tagN 31 0

/-- Model identity of the resolve program. -/
def zkrResolveProgram : Program := tagN 31 1

/-- Model identity of the identity program. -/
def zkrIdentityProgram : Program := tagN 31 2

/-- Model control id of the lift(po2) program variant. -/
def liftControlId (po2 : Nat) : Digest := tagN 20 po2

/-- Model control id of the join program. -/
def JOIN_CONTROL_ID : Digest := tagN 21 0

/-- Model control id of the resolve program. -/
def RESOLVE_CONTROL_ID : Digest := tagN 21 1

/-- Model control id of the identity program under poseidon2. -/
def IDENTITY_CONTROL_ID : Digest := tagN 21 2

/-- Modelled from the spec: the single well-known control id of the BN254
identity program (risc0_circuit_recursion BN254_IDENTITY_CONTROL_ID). -/
def BN254_IDENTITY_CONTROL_ID : Digest := tagN 21 3

/-- Modelled from the spec: the rv32im segment control ids per po2
(risc0_circuit_rv32im POSEIDON2_CONTROL_IDS). -/
def POSEIDON2_CONTROL_IDS : List Digest := (List.range NUM_PO2S).map (fun i => tagN 22 i)

/-- Modelled from the spec: the default allowed control-id registry, holding
the rv32im segment ids and the recursion program ids. -/
def SUCCINCT_CONTROL_IDS : List Digest :=
  POSEIDON2_CONTROL_IDS
    ++ (List.range NUM_PO2S).map (fun i => liftControlId (MIN_CYCLES_PO2 + i))
    ++ [JOIN_CONTROL_ID, RESOLVE_CONTROL_ID, IDENTITY_CONTROL_ID]

/-- Modelled from the spec: the root of the default allowed registry. -/
def ALLOWED_CONTROL_ROOT : Digest := MerkleGroup.calc_root ⟨SUCCINCT_CONTROL_IDS⟩

/-- Modelled from the spec: the default succinct verifier parameters — the
default allowed root, no inner root, and the fixed info constants. -/
def SuccinctReceiptVerifierParameters.default : SuccinctReceiptVerifierParameters :=
  { control_root := ALLOWED_CONTROL_ROOT, inner_control_root := none,
    proof_system_info := PROOF_SYSTEM_INFO, circuit_info := CIRCUIT_INFO }

/-- Modelled from the spec: prover options — the hash function driving the
recursion proof and the allowed control-id registry. -/
structure ProverOpts where
  hashfn : String
  control_ids : List Digest
deriving DecidableEq

/-- Modelled from the spec: the default succinct prover options, poseidon2
over the default registry. -/
def ProverOpts.succinct : ProverOpts :=
  { hashfn := "poseidon2", control_ids := SUCCINCT_CONTROL_IDS }

/-- Modelled from the spec: hash-suite lookup by name, failing for an unknown
name. -/
def ProverOpts.hash_suite (opts : ProverOpts) : Except RErr Unit :=
  if hashfnSupported opts.hashfn then .ok () else .error .ConfigurationError

/-- Modelled from the spec: selects how a digest is packed into the
field-element tape. -/
inductive DigestKind where
  | Poseidon2
  | Sha256
deriving DecidableEq

/-- Model packing of a digest into tape words, one encoding per hash domain. -/
def encodeDigestInput : DigestKind → Digest → List Nat
  | .Poseidon2, d => [50, d]
  | .Sha256, d => [51, d]

/-- Modelled from the spec: result of the opaque proof-system run — a seal
and an output stream. -/
structure RecursionReceipt where
  sealData : List Nat
  output : List Nat
deriving DecidableEq

/-- Modelled from the spec: the opaque proof-system boundary
run(program, input_tape), supplied by the environment. -/
abbrev RunOracle := Program → List Nat → Except RErr RecursionReceipt

/-- Modelled from the spec: zkr::lift(po2, hashfn), the lift program variant
for one segment size, failing for an unsupported po2 or hash. -/
def zkr.lift (po2 : Nat) (hashfn : String) : Except RErr (Program × Digest) :=
  if hashfn = "poseidon2" ∧ MIN_CYCLES_PO2 ≤ po2 ∧ po2 < MIN_CYCLES_PO2 + NUM_PO2S then
    .ok (zkrLiftProgram po2, liftControlId po2)
  else .error .ConfigurationError

/-- Modelled from the spec: zkr::join(hashfn). -/
def zkr.join (hashfn : String) : Except RErr (Program × Digest) :=
  if hashfn = "poseidon2" then .ok (zkrJoinProgram, JOIN_CONTROL_ID)
  else .error .ConfigurationError

/-- Modelled from the spec: zkr::resolve(hashfn). -/
def zkr.resolve (hashfn : String) : Except RErr (Program × Digest) :=
  if hashfn = "poseidon2" then .ok (zkrResolveProgram, RESOLVE_CONTROL_ID)
  else .error .ConfigurationError

/-- Modelled from the spec: zkr::identity(hashfn); under poseidon_254 its
control id is the well-known BN254 identity control id. -/
def zkr.identity (hashfn : String) : Except RErr (Program × Digest) :=
  if hashfn = "poseidon2" then .ok (zkrIdentityProgram, IDENTITY_CONTROL_ID)
  else if hashfn = "poseidon_254" then .ok (zkrIdentityProgram, BN254_IDENTITY_CONTROL_ID)
  else .error .ConfigurationError

/-- Lift an optional value into the Except monad with the given error. -/
def ofOption {α : Type} (o : Option α) (e : RErr) : Except RErr α :=
  match o with
  | some v => .ok v
  | none => .error e

/-- State of the recursion Prover: the selected program and control id plus
the accumulated input tape; sealControlIds records the control id reported
for each added seal (mirroring the debug log of add_seal). -/
structure ProverState where
  program : Program
  control_id : Digest
  hashfn : String
  input : List Nat
  sealControlIds : List Digest
deriving DecidableEq

/-- Prover::new — selects the program and control id, with an empty tape. -/
def Prover.new (program : Program) (control_id : Digest) (opts : ProverOpts) : ProverState :=
  { program := program, control_id := control_id, hashfn := opts.hashfn,
    input := [], sealControlIds := [] }

/-- Prover::add_input — append words to the input tape. -/
def ProverState.add_input (p : ProverState) (words : List Nat) : ProverState :=
  { p with input := p.input ++ words }

/-- Prover::add_input_digest — append a digest packed for the given domain. -/
def ProverState.add_input_digest (p : ProverState) (d : Digest) (kind : DigestKind) : ProverState :=
  p.add_input (encodeDigestInput kind d)

/-- Prover::add_seal — append a seal, the Merkle index of its control id, and
each sibling digest of the inclusion proof. -/
def ProverState.add_seal (p : ProverState) (s : List Nat) (control_id : Digest)
    (proof : MerkleProof) : ProverState :=
  let p1 := p.add_input s
  let p2 := p1.add_input [proof.index]
  let p3 := proof.digests.foldl (fun q d => q.add_input_digest d DigestKind.Poseidon2) p2
  { p3 with sealControlIds := p3.sealControlIds ++ [control_id] }

/-- Prover::add_segment_receipt — append a receipt seal plus the encoding of
its (materialized) claim. -/
def ProverState.add_segment_receipt (p : ProverState) (a : SuccinctReceipt ReceiptClaim) :
    Except RErr ProverState := do
  let p1 := p.add_seal a.sealData a.control_id a.control_inclusion_proof
  let v ← a.claim.as_value
  let data ← v.encode
  return p1.add_input data

/-- Prover::add_assumption_receipt — append a receipt seal plus one boolean
flag signaling whether the assumption control root was the zero sentinel. -/
def ProverState.add_assumption_receipt {C : Type} (p : ProverState) (assumption : Assumption)
    (receipt : SuccinctReceipt C) : ProverState :=
  let p1 := p.add_seal receipt.sealData receipt.control_id receipt.control_inclusion_proof
  p1.add_input [if assumption.control_root = 0 then 1 else 0]

/-- Prover::new_lift — requires the poseidon2 hashfn, reads po2 from the
fixed offset after the rv32im output region of the segment seal, selects the
lift(po2) program, and loads the registry root plus the segment seal with the
inclusion proof of the matching rv32im control id.  A seal too short for the
po2 read models the Rust read/unwrap panic as Abort. -/
def Prover.new_lift (segment : SegmentReceipt) (opts : ProverOpts) : Except RErr ProverState :=
  if segment.hashfn = "poseidon2" then do
    let _ihs ← (if hashfnSupported segment.hashfn then Except.ok () else Except.error RErr.ConfigurationError)
    let allowed_ids ← MerkleGroup.new opts.control_ids
    let merkle_root := allowed_ids.calc_root
    let po2 ← ofOption (segment.sealData.get? OUTPUT_SIZE) RErr.Abort
    let pc ← zkr.lift po2 opts.hashfn
    let prover := Prover.new pc.1 pc.2 opts
    let prover := prover.add_input_digest merkle_root DigestKind.Poseidon2
    let which := po2 - MIN_CYCLES_PO2
    let inner_control_id := POSEIDON2_CONTROL_IDS.getD which 0
    let proof ← allowed_ids.get_proof inner_control_id
    return prover.add_seal segment.sealData inner_control_id proof
  else .error .ConfigurationError

/-- Prover::new_join — requires poseidon2 on both receipts and equal control
roots (else RootMismatch), then loads the shared root and both receipts. -/
def Prover.new_join (a b : SuccinctReceipt ReceiptClaim) (opts : ProverOpts) :
    Except RErr ProverState :=
  if a.hashfn = "poseidon2" then
  if b.hashfn = "poseidon2" then do
    let pc ← zkr.join opts.hashfn
    let prover := Prover.new pc.1 pc.2 opts
    let merkle_root ← a.control_root
    let broot ← b.control_root
    if merkle_root = broot then do
      let prover := prover.add_input_digest merkle_root DigestKind.Poseidon2
      let prover ← prover.add_segment_receipt a
      let prover ← prover.add_segment_receipt b
      return prover
    else .error .RootMismatch
  else .error .ConfigurationError
  else .error .ConfigurationError

/-- Prover::new_resolve — requires poseidon2 on both receipts, loads the
conditional receipt, opens its output and the head assumption, checks the
head against the assumption receipt (claim digest, and control root with the
zero sentinel meaning the conditional receipt root), removes the head from
the assumptions list, and loads the assumption receipt plus the tail and
journal digests. -/
def Prover.new_resolve {C : Type} [Digestible C] (cond : SuccinctReceipt ReceiptClaim)
    (assum : SuccinctReceipt C) (opts : ProverOpts) : Except RErr ProverState :=
  if cond.hashfn = "poseidon2" then
  if assum.hashfn = "poseidon2" then do
    let pc ← zkr.resolve opts.hashfn
    let prover := Prover.new pc.1 pc.2 opts
    let croot ← cond.control_root
    let prover := prover.add_input_digest croot DigestKind.Poseidon2
    let prover ← prover.add_segment_receipt cond
    let cv ← cond.claim.as_value
    let outOpt ← cv.output.as_value
    let output ← ofOption outOpt RErr.EmptyAssumptionError
    let assumptions ← output.assumptions.as_value
    let headMp ← ofOption assumptions.list.head? RErr.EmptyAssumptionError
    let head ← headMp.as_value
    if head.claim = MaybePruned.digest assum.claim then do
      let expected_root := if head.control_root = 0 then croot else head.control_root
      let aroot ← assum.control_root
      if expected_root = aroot then do
        let assumptions_tail ← assumptions.resolveHead (Digestible.digest head)
        let prover := prover.add_assumption_receipt head assum
        let prover := prover.add_input_digest assumptions_tail.digest DigestKind.Sha256
        let prover := prover.add_input_digest (MaybePruned.digest output.journal) DigestKind.Sha256
        return prover
      else .error .AssumptionMismatchError
    else .error .AssumptionMismatchError
  else .error .ConfigurationError
  else .error .ConfigurationError

/-- Prover::new_identity — requires poseidon2 on the input receipt, then
loads its control root and the receipt itself for the identity program. -/
def Prover.new_identity (a : SuccinctReceipt ReceiptClaim) (opts : ProverOpts) :
    Except RErr ProverState :=
  if a.hashfn = "poseidon2" then do
    let pc ← zkr.identity opts.hashfn
    let prover := Prover.new pc.1 pc.2 opts
    let aroot ← a.control_root
    let prover := prover.add_input_digest aroot DigestKind.Poseidon2
    let prover ← prover.add_segment_receipt a
    return prover
  else .error .ConfigurationError

/-- The expected sequential-composition claim join computes locally:
pre and input from a, post, exit code and output from b. -/
def joinExpectedClaim (av bv : ReceiptClaim) : ReceiptClaim :=
  { pre := av.pre, post := bv.post, exit_code := bv.exit_code,
    input := av.input, output := bv.output }

/-- lift — runs the lift program over a segment receipt, decodes the output
stream into a claim, merges it with the segment claim, and packages the
result with an inclusion proof for the lift control id and the default
succinct verifier parameters. -/
def lift (segment_receipt : SegmentReceipt) (run : RunOracle) :
    Except RErr (SuccinctReceipt ReceiptClaim) := do
  let opts := ProverOpts.succinct
  let prover ← Prover.new_lift segment_receipt opts
  let receipt ← run prover.program prover.input
  let claim_decoded ← ReceiptClaim.decode receipt.output
  let group ← MerkleGroup.new opts.control_ids
  let _hs ← opts.hash_suite
  let proof ← group.get_proof prover.control_id
  let merged ← claim_decoded.merge segment_receipt.claim
  return { sealData := receipt.sealData, hashfn := opts.hashfn,
           control_id := prover.control_id, control_inclusion_proof := proof,
           claim := .Value merged,
           verifier_parameters := SuccinctReceiptVerifierParameters.default.digest }

/-- join — runs the join program over two receipts of the same session,
computes the expected sequential-composition claim locally, decodes the
circuit output and merges the two, and packages the result with the default
succinct verifier parameters. -/
def join (a b : SuccinctReceipt ReceiptClaim) (run : RunOracle) :
    Except RErr (SuccinctReceipt ReceiptClaim) := do
  let opts := ProverOpts.succinct
  let prover ← Prover.new_join a b opts
  let receipt ← run prover.program prover.input
  let av ← a.claim.as_value
  let bv ← b.claim.as_value
  let ab_claim := joinExpectedClaim av bv
  let claim_decoded ← ReceiptClaim.decode receipt.output
  let group ← MerkleGroup.new opts.control_ids
  let _hs ← opts.hash_suite
  let proof ← group.get_proof prover.control_id
  let merged ← claim_decoded.merge ab_claim
  return { sealData := receipt.sealData, hashfn := opts.hashfn,
           control_id := prover.control_id, control_inclusion_proof := proof,
           claim := .Value merged,
           verifier_parameters := SuccinctReceiptVerifierParameters.default.digest }

/-- The conditional claim with the head assumption removed from its output:
the tail of the assumptions list replaces the whole list, everything else is
kept. -/
def resolvedClaim (cv : ReceiptClaim) (o : Output) (tail : List (MaybePruned Assumption)) :
    ReceiptClaim :=
  { cv with output := .Value (some { o with assumptions := .Value ⟨tail⟩ }) }

/-- resolve — copies the conditional claim and removes the head assumption
from its output (the Rust Vec::drain(..1) panics on an empty list, modelled
as Abort), then runs the resolve program, decodes the circuit output, merges
it with the locally resolved claim, and packages the result with the default
succinct verifier parameters. -/
def resolve {C : Type} [Digestible C] (conditional : SuccinctReceipt ReceiptClaim)
    (assumption : SuccinctReceipt C) (run : RunOracle) :
    Except RErr (SuccinctReceipt ReceiptClaim) := do
  let cv ← conditional.claim.as_value
  let outOpt ← cv.output.as_value
  let o ← ofOption outOpt RErr.EmptyAssumptionError
  let alist ← o.assumptions.as_value
  let tail ← ofOption alist.list.tail? RErr.Abort
  let resolved_claim := resolvedClaim cv o tail
  let opts := ProverOpts.succinct
  let prover ← Prover.new_resolve conditional assumption opts
  let receipt ← run prover.program prover.input
  let claim_decoded ← ReceiptClaim.decode receipt.output
  let group ← MerkleGroup.new opts.control_ids
  let _hs ← opts.hash_suite
  let proof ← group.get_proof prover.control_id
  let merged ← claim_decoded.merge resolved_claim
  return { sealData := receipt.sealData, hashfn := opts.hashfn,
           control_id := prover.control_id, control_inclusion_proof := proof,
           claim := .Value merged,
           verifier_parameters := SuccinctReceiptVerifierParameters.default.digest }

/-- The prover options identity_p254 builds: succinct options with the
poseidon_254 hashfn and the BN254 identity control id registry. -/
def identityOpts : ProverOpts :=
  { hashfn := "poseidon_254", control_ids := [BN254_IDENTITY_CONTROL_ID] }

/-- identity_p254 — re-proves a receipt under the poseidon_254 hash, merging
the decoded claim with the input claim, and binds verifier parameters that
record the recomputed BN254 control root together with the inner control
root the input receipt was proved against. -/
def identity_p254 (a : SuccinctReceipt ReceiptClaim) (run : RunOracle) :
    Except RErr (SuccinctReceipt ReceiptClaim) := do
  let opts := identityOpts
  let prover ← Prover.new_identity a opts
  let receipt ← run prover.program prover.input
  let decoded ← ReceiptClaim.decode receipt.output
  let claim ← (MaybePruned.Value decoded).merge a.claim
  let _hs ← opts.hash_suite
  let group ← MerkleGroup.new opts.control_ids
  let proof ← group.get_proof prover.control_id
  let control_root := proof.rootFor prover.control_id
  let aroot ← a.control_root
  let params : SuccinctReceiptVerifierParameters :=
    { control_root := control_root, inner_control_root := some aroot,
      proof_system_info := PROOF_SYSTEM_INFO, circuit_info := CIRCUIT_INFO }
  return { sealData := receipt.sealData, hashfn := opts.hashfn,
           control_id := prover.control_id, control_inclusion_proof := proof,
           claim := claim, verifier_parameters := params.digest }

/- ---------------------------------------------------------------------
   Concrete scenario used to exercise the operations.
   --------------------------------------------------------------------- -/

/-- Initial system state of the test scenario. -/
def stA : SystemState := ⟨0, 0⟩

/-- Intermediate system state of the test scenario. -/
def stB : SystemState := ⟨1, 0⟩

/-- Final system state of the test scenario. -/
def stC : SystemState := ⟨2, 0⟩

/-- Test claim covering the span from stA to stB. -/
def avW : ReceiptClaim :=
  { pre := .Value stA, post := .Value stB, exit_code := 0, input := .Pruned 5,
    output := .Pruned 0 }

/-- Test claim covering the adjacent span from stB to stC. -/
def bvW : ReceiptClaim :=
  { pre := .Value stB, post := .Value stC, exit_code := 0, input := .Pruned 5,
    output := .Pruned 0 }

/-- Build a poseidon2 succinct receipt with an empty inclusion path, whose
control root is therefore its control id. -/
def mkReceipt (cid : Digest) (c : MaybePruned ReceiptClaim) : SuccinctReceipt ReceiptClaim :=
  { sealData := [], hashfn := "poseidon2", control_id := cid,
    control_inclusion_proof := ⟨0, []⟩, claim := c, verifier_parameters := 0 }

/-- Test receipt for the first span. -/
def aW : SuccinctReceipt ReceiptClaim := mkReceipt 77 (.Value avW)

/-- Test receipt for the second span. -/
def bW : SuccinctReceipt ReceiptClaim := mkReceipt 77 (.Value bvW)

/-- Output stream a successful join run would produce for aW and bW. -/
def joinStream : List Nat := [5, 0, 0, 2, 0, 0, 0]

/-- Oracle standing for the opaque proof-system run of the join program. -/
def runJoinW : RunOracle := fun _ _ => .ok ⟨[], joinStream⟩

/-- Test assumption receipt, carrying a pruned claim digest. -/
def assumReceiptW : SuccinctReceipt ReceiptClaim := mkReceipt 77 (.Pruned 9)

/-- Head assumption matching assumReceiptW, with the zero-sentinel root. -/
def asmHeadW : Assumption :=
  { claim := MaybePruned.digest assumReceiptW.claim, control_root := 0 }

/-- Output of the conditional test receipt: one pending assumption. -/
def outW : Output := { journal := .Pruned 3, assumptions := .Value ⟨[.Value asmHeadW]⟩ }

/-- Claim of the conditional test receipt. -/
def condClaimW : ReceiptClaim :=
  { pre := .Value stA, post := .Value stB, exit_code := 0, input := .Pruned 5,
    output := .Value (some outW) }

/-- Conditional test receipt with one assumption. -/
def condW : SuccinctReceipt ReceiptClaim := mkReceipt 77 (.Value condClaimW)

/-- Output of the conditional claim after resolving its head assumption. -/
def resolvedOutW : Output := { journal := .Pruned 3, assumptions := .Value ⟨[]⟩ }

/-- Output stream a successful resolve run would produce for condW. -/
def resolveStream : List Nat := [5, 0, 0, 1, 0, 0, Digestible.digest (some resolvedOutW)]

/-- Oracle standing for the opaque proof-system run of the resolve program. -/
def runResolveW : RunOracle := fun _ _ => .ok ⟨[], resolveStream⟩

/-- Segment test receipt: po2 = 14 sits right after the output region. -/
def segW : SegmentReceipt :=
  { sealData := List.replicate OUTPUT_SIZE 0 ++ [14], hashfn := "poseidon2", claim := avW }

/-- Output stream a successful lift run would produce for segW. -/
def liftStream : List Nat := [5, 0, 0, 1, 0, 0, 0]

/-- Oracle standing for the opaque proof-system run of the lift program. -/
def runLiftW : RunOracle := fun _ _ => .ok ⟨[], liftStream⟩

/-- Oracle standing for the opaque proof-system run of the identity program. -/
def runIdW : RunOracle := fun _ _ => .ok ⟨[], liftStream⟩

/-- A second input receipt for identity_p254, proved against another root. -/
def aW2 : SuccinctReceipt ReceiptClaim := mkReceipt 78 (.Value avW)

/-- Output of the conditional test receipt with an empty assumptions list. -/
def outEmptyW : Output := { journal := .Pruned 3, assumptions := .Value ⟨[]⟩ }

/-- Claim of the conditional test receipt with no assumptions. -/
def condEmptyClaimW : ReceiptClaim :=
  { pre := .Value stA, post := .Value stB, exit_code := 0, input := .Pruned 5,
    output := .Value (some outEmptyW) }

/-- Conditional test receipt whose materialized assumptions list is empty. -/
def condEmptyW : SuccinctReceipt ReceiptClaim := mkReceipt 77 (.Value condEmptyClaimW)

/-- Extract the receipt of a successful operation (defaulting arbitrarily). -/
def okD (x : Except RErr (SuccinctReceipt ReceiptClaim)) : SuccinctReceipt ReceiptClaim :=
  x.toOption.getD
    { sealData := [], hashfn := "", control_id := 0, control_inclusion_proof := ⟨0, []⟩,
      claim := .Pruned 0, verifier_parameters := 0 }

/-- The receipt produced by the join test scenario. -/
def rJoinW : SuccinctReceipt ReceiptClaim := okD (join aW bW runJoinW)

/-- The receipt produced by the resolve test scenario. -/
def rResolveW : SuccinctReceipt ReceiptClaim := okD (resolve condW assumReceiptW runResolveW)

/-- The receipt produced by the lift test scenario. -/
def rLiftW : SuccinctReceipt ReceiptClaim := okD (lift segW runLiftW)

/-- The receipt produced by the first identity test scenario. -/
def rIdW : SuccinctReceipt ReceiptClaim := okD (identity_p254 aW runIdW)

/-- The receipt produced by the second identity test scenario. -/
def rIdW2 : SuccinctReceipt ReceiptClaim := okD (identity_p254 aW2 runIdW)

/-- Assumption receipt whose claim digest does not match the head. -/
def assumBadW : SuccinctReceipt ReceiptClaim := mkReceipt 77 (.Pruned 10)

/-- Receipt for the second span proved against a different control root. -/
def bW78 : SuccinctReceipt ReceiptClaim := mkReceipt 78 (.Value bvW)

/-- Receipt like aW but carried under the sha-256 hash suite. -/
def aShaW : SuccinctReceipt ReceiptClaim :=
  { sealData := [], hashfn := "sha-256", control_id := 77,
    control_inclusion_proof := ⟨0, []⟩, claim := .Value avW, verifier_parameters := 0 }

/-- The prover state built by the lift test scenario. -/
def pLiftW : ProverState :=
  (Prover.new_lift segW ProverOpts.succinct).toOption.getD (Prover.new 0 0 ProverOpts.succinct)

/- ---------------------------------------------------------------------
   Helper lemmas.
   --------------------------------------------------------------------- -/

theorem exbind_ok_iff {α β : Type} {x : Except RErr α} {f : α → Except RErr β} {r : β} :
    x >>= f = Except.ok r ↔ ∃ v, x = Except.ok v ∧ f v = Except.ok r := by
  cases x <;> simp [Bind.bind, Except.bind]

theorem expure_ok_iff {α : Type} {v r : α} :
    (pure v : Except RErr α) = Except.ok r ↔ v = r := by
  simp [pure, Except.pure]

theorem exbind_err {α β : Type} {x : Except RErr α} {f : α → Except RErr β} {e : RErr}
    (h : x = Except.error e) : x >>= f = Except.error e := by
  subst h; rfl

theorem as_value_ok_iff {α : Type} {x : MaybePruned α} {v : α} :
    x.as_value = Except.ok v ↔ x = .Value v := by
  cases x <;> simp [MaybePruned.as_value]

theorem ofOption_ok_iff {α : Type} {o : Option α} {e : RErr} {v : α} :
    ofOption o e = Except.ok v ↔ o = some v := by
  cases o <;> simp [ofOption]

theorem mergeP_ok_digests {α : Type} [DecidableEq α] [Digestible α] {x y z : MaybePruned α}
    (h : MaybePruned.merge x y = .ok z) :
    MaybePruned.digest z = MaybePruned.digest x ∧
    MaybePruned.digest z = MaybePruned.digest y := by
  cases x <;> cases y <;> simp only [MaybePruned.merge] at h <;> split at h <;>
    cases h <;> simp_all [MaybePruned.digest]

theorem mergeP_pruned_left {α : Type} [DecidableEq α] [Digestible α] {d : Digest}
    {y z : MaybePruned α} (h : MaybePruned.merge (.Pruned d) y = .ok z) : z = y := by
  cases y <;> simp only [MaybePruned.merge] at h <;> split at h <;>
    cases h <;> simp_all

theorem mergeRC_ok_parts {d e m : ReceiptClaim} (h : ReceiptClaim.merge d e = .ok m) :
    ∃ pre post input output,
      MaybePruned.merge d.pre e.pre = .ok pre ∧
      MaybePruned.merge d.post e.post = .ok post ∧
      MaybePruned.merge d.input e.input = .ok input ∧
      MaybePruned.merge d.output e.output = .ok output ∧
      d.exit_code = e.exit_code ∧
      m = { pre := pre, post := post, exit_code := d.exit_code,
            input := input, output := output } := by
  unfold ReceiptClaim.merge at h
  simp only [exbind_ok_iff] at h
  obtain ⟨pre, hpre, post, hpost, input, hinput, output, houtput, h⟩ := h
  split at h
  case isTrue hec =>
    simp only [expure_ok_iff] at h
    exact ⟨pre, post, input, output, hpre, hpost, hinput, houtput, hec, h.symm⟩
  case isFalse => exact absurd h (by simp)

theorem exbind_ok_val {α β : Type} (v : α) (f : α → Except RErr β) :
    (Except.ok v : Except RErr α) >>= f = f v := rfl

theorem exbind_error_val {α β : Type} (e : RErr) (f : α → Except RErr β) :
    (Except.error e : Except RErr α) >>= f = Except.error e := rfl

theorem exbind_exists_err {α β : Type} {x : Except RErr α} {f : α → Except RErr β}
    (h : ∀ v, x = .ok v → ∃ e, f v = .error e) : ∃ e, x >>= f = .error e := by
  cases x with
  | error e => exact ⟨e, rfl⟩
  | ok v =>
    obtain ⟨e, he⟩ := h v rfl
    exact ⟨e, by simp [Bind.bind, Except.bind, he]⟩

theorem exbind_err_exists {α β : Type} {x : Except RErr α} {f : α → Except RErr β}
    (h : ∃ e, x = .error e) : ∃ e, x >>= f = .error e := by
  obtain ⟨e, he⟩ := h
  exact ⟨e, exbind_err he⟩

/-- A decoded claim always carries materialized system states and pruned
input and output. -/
theorem decode_ok_shape {s : List Nat} {c : ReceiptClaim}
    (h : ReceiptClaim.decode s = .ok c) :
    ∃ din pp pm qp qm ec dout,
      c = { pre := .Value ⟨pp, pm⟩, post := .Value ⟨qp, qm⟩, exit_code := ec,
            input := .Pruned din, output := .Pruned dout } := by
  unfold ReceiptClaim.decode at h
  split at h
  next din pp pm qp qm ec dout rest =>
    cases h
    exact ⟨din, pp, pm, qp, qm, ec, dout, rfl⟩
  next => cases h

theorem foldl_add_digest_fields (l : List Digest) (p : ProverState) :
    (l.foldl (fun q d => q.add_input_digest d DigestKind.Poseidon2) p).program = p.program ∧
    (l.foldl (fun q d => q.add_input_digest d DigestKind.Poseidon2) p).control_id = p.control_id ∧
    (l.foldl (fun q d => q.add_input_digest d DigestKind.Poseidon2) p).sealControlIds
      = p.sealControlIds := by
  induction l generalizing p with
  | nil => exact ⟨rfl, rfl, rfl⟩
  | cons x t ih =>
    simpa [List.foldl, ProverState.add_input_digest, ProverState.add_input] using
      ih (p.add_input (encodeDigestInput DigestKind.Poseidon2 x))

theorem add_seal_program (p : ProverState) (s : List Nat) (cid : Digest) (proof : MerkleProof) :
    (p.add_seal s cid proof).program = p.program := by
  simp [ProverState.add_seal, (foldl_add_digest_fields proof.digests _).1,
    ProverState.add_input]

theorem add_seal_control_id (p : ProverState) (s : List Nat) (cid : Digest)
    (proof : MerkleProof) : (p.add_seal s cid proof).control_id = p.control_id := by
  simp [ProverState.add_seal, (foldl_add_digest_fields proof.digests _).2.1,
    ProverState.add_input]

theorem add_seal_sealControlIds (p : ProverState) (s : List Nat) (cid : Digest)
    (proof : MerkleProof) :
    (p.add_seal s cid proof).sealControlIds = p.sealControlIds ++ [cid] := by
  simp [ProverState.add_seal, (foldl_add_digest_fields proof.digests _).2.2,
    ProverState.add_input]

theorem add_segment_receipt_fields {p q : ProverState} {a : SuccinctReceipt ReceiptClaim}
    (h : p.add_segment_receipt a = .ok q) :
    q.program = p.program ∧ q.control_id = p.control_id := by
  simp only [ProverState.add_segment_receipt, exbind_ok_iff, expure_ok_iff] at h
  obtain ⟨v, hv, data, hdata, hq⟩ := h
  subst hq
  exact ⟨by simp [ProverState.add_input, add_seal_program],
         by simp [ProverState.add_input, add_seal_control_id]⟩

theorem zkr_join_succinct :
    zkr.join ProverOpts.succinct.hashfn = .ok (zkrJoinProgram, JOIN_CONTROL_ID) := by rfl

theorem zkr_resolve_succinct :
    zkr.resolve ProverOpts.succinct.hashfn = .ok (zkrResolveProgram, RESOLVE_CONTROL_ID) := by rfl

theorem zkr_identity_p254 :
    zkr.identity identityOpts.hashfn = .ok (zkrIdentityProgram, BN254_IDENTITY_CONTROL_ID) := by
  rfl

/-- A successful new_identity prover carries the BN254 identity control id. -/
theorem new_identity_control_id {a : SuccinctReceipt ReceiptClaim} {p : ProverState}
    (h : Prover.new_identity a identityOpts = .ok p) :
    p.control_id = BN254_IDENTITY_CONTROL_ID := by
  unfold Prover.new_identity at h
  split at h
  case isTrue =>
    rw [zkr_identity_p254] at h
    simp only [exbind_ok_val, exbind_ok_iff, expure_ok_iff] at h
    obtain ⟨aroot, haroot, q, hq, hp⟩ := h
    subst hp
    have := add_segment_receipt_fields hq
    simpa [Prover.new, ProverState.add_input_digest, ProverState.add_input] using this.2
  case isFalse => cases h

theorem mgnew_succinct :
    MerkleGroup.new ProverOpts.succinct.control_ids = .ok ⟨SUCCINCT_CONTROL_IDS⟩ := by rfl

theorem hash_suite_succinct : ProverOpts.succinct.hash_suite = .ok () := by rfl

theorem succinct_hashfn : ProverOpts.succinct.hashfn = "poseidon2" := by rfl

theorem mgnew_identity :
    MerkleGroup.new identityOpts.control_ids = .ok ⟨[BN254_IDENTITY_CONTROL_ID]⟩ := by rfl

theorem hash_suite_identity : identityOpts.hash_suite = .ok () := by rfl

theorem identity_hashfn : identityOpts.hashfn = "poseidon_254" := by rfl

/-- Success inversion for join: every intermediate step succeeded and the
result receipt is the packaged merged claim. -/
theorem join_ok_inversion {a b : SuccinctReceipt ReceiptClaim} {run : RunOracle}
    {r : SuccinctReceipt ReceiptClaim} (h : join a b run = .ok r) :
    ∃ prover receipt av bv claim_decoded proof merged,
      Prover.new_join a b ProverOpts.succinct = .ok prover ∧
      run prover.program prover.input = .ok receipt ∧
      a.claim = .Value av ∧ b.claim = .Value bv ∧
      ReceiptClaim.decode receipt.output = .ok claim_decoded ∧
      MerkleGroup.get_proof ⟨SUCCINCT_CONTROL_IDS⟩ prover.control_id = .ok proof ∧
      ReceiptClaim.merge claim_decoded (joinExpectedClaim av bv) = .ok merged ∧
      r = { sealData := receipt.sealData, hashfn := "poseidon2",
            control_id := prover.control_id, control_inclusion_proof := proof,
            claim := .Value merged,
            verifier_parameters := SuccinctReceiptVerifierParameters.default.digest } := by
  simp only [join, exbind_ok_iff, expure_ok_iff, as_value_ok_iff] at h
  obtain ⟨prover, hp, receipt, hrun, av, hav, bv, hbv, cd, hcd, g, hg, u, hu, proof, hproof,
    merged, hm, hr⟩ := h
  rw [mgnew_succinct] at hg
  cases hg
  rw [succinct_hashfn] at hr
  exact ⟨prover, receipt, av, bv, cd, proof, merged, hp, hrun, hav, hbv, hcd, hproof, hm, hr.symm⟩

/-- Success inversion for lift. -/
theorem lift_ok_inversion {seg : SegmentReceipt} {run : RunOracle}
    {r : SuccinctReceipt ReceiptClaim} (h : lift seg run = .ok r) :
    ∃ prover receipt claim_decoded proof merged,
      Prover.new_lift seg ProverOpts.succinct = .ok prover ∧
      run prover.program prover.input = .ok receipt ∧
      ReceiptClaim.decode receipt.output = .ok claim_decoded ∧
      MerkleGroup.get_proof ⟨SUCCINCT_CONTROL_IDS⟩ prover.control_id = .ok proof ∧
      ReceiptClaim.merge claim_decoded seg.claim = .ok merged ∧
      r = { sealData := receipt.sealData, hashfn := "poseidon2",
            control_id := prover.control_id, control_inclusion_proof := proof,
            claim := .Value merged,
            verifier_parameters := SuccinctReceiptVerifierParameters.default.digest } := by
  simp only [lift, exbind_ok_iff, expure_ok_iff] at h
  obtain ⟨prover, hp, receipt, hrun, cd, hcd, g, hg, u, hu, proof, hproof, merged, hm, hr⟩ := h
  rw [mgnew_succinct] at hg
  cases hg
  rw [succinct_hashfn] at hr
  exact ⟨prover, receipt, cd, proof, merged, hp, hrun, hcd, hproof, hm, hr.symm⟩

/-- Success inversion for resolve: the conditional claim, output and
assumptions were materialized, the head was removed, and the result receipt
packages the merge of the decoded claim with the locally resolved claim. -/
theorem resolve_ok_inversion {C : Type} [Digestible C] {cond : SuccinctReceipt ReceiptClaim}
    {assum : SuccinctReceipt C} {run : RunOracle} {r : SuccinctReceipt ReceiptClaim}
    (h : resolve cond assum run = .ok r) :
    ∃ cv o alist tail prover receipt claim_decoded proof merged,
      cond.claim = .Value cv ∧
      cv.output = .Value (some o) ∧
      o.assumptions = .Value alist ∧
      alist.list.tail? = some tail ∧
      Prover.new_resolve cond assum ProverOpts.succinct = .ok prover ∧
      run prover.program prover.input = .ok receipt ∧
      ReceiptClaim.decode receipt.output = .ok claim_decoded ∧
      MerkleGroup.get_proof ⟨SUCCINCT_CONTROL_IDS⟩ prover.control_id = .ok proof ∧
      ReceiptClaim.merge claim_decoded (resolvedClaim cv o tail) = .ok merged ∧
      r = { sealData := receipt.sealData, hashfn := "poseidon2",
            control_id := prover.control_id, control_inclusion_proof := proof,
            claim := .Value merged,
            verifier_parameters := SuccinctReceiptVerifierParameters.default.digest } := by
  simp only [resolve, exbind_ok_iff, expure_ok_iff, as_value_ok_iff, ofOption_ok_iff] at h
  obtain ⟨cv, hcv, outOpt, hout, o, ho, alist, halist, tail, htail, prover, hp, receipt, hrun,
    cd, hcd, g, hg, u, hu, proof, hproof, merged, hm, hr⟩ := h
  subst ho
  rw [mgnew_succinct] at hg
  cases hg
  rw [succinct_hashfn] at hr
  exact ⟨cv, o, alist, tail, prover, receipt, cd, proof, merged, hcv, hout, halist, htail,
    hp, hrun, hcd, hproof, hm, hr.symm⟩

/-- Success inversion for identity_p254. -/
theorem identity_ok_inversion {a : SuccinctReceipt ReceiptClaim} {run : RunOracle}
    {r : SuccinctReceipt ReceiptClaim} (h : identity_p254 a run = .ok r) :
    ∃ prover receipt decoded claim proof aroot,
      Prover.new_identity a identityOpts = .ok prover ∧
      run prover.program prover.input = .ok receipt ∧
      ReceiptClaim.decode receipt.output = .ok decoded ∧
      MaybePruned.merge (.Value decoded) a.claim = .ok claim ∧
      MerkleGroup.get_proof ⟨[BN254_IDENTITY_CONTROL_ID]⟩ prover.control_id = .ok proof ∧
      a.control_root = .ok aroot ∧
      r = { sealData := receipt.sealData, hashfn := "poseidon_254",
            control_id := prover.control_id, control_inclusion_proof := proof,
            claim := claim,
            verifier_parameters := SuccinctReceiptVerifierParameters.digest
              { control_root := proof.rootFor prover.control_id,
                inner_control_root := some aroot,
                proof_system_info := PROOF_SYSTEM_INFO,
                circuit_info := CIRCUIT_INFO } } := by
  simp only [identity_p254, exbind_ok_iff, expure_ok_iff] at h
  obtain ⟨prover, hp, receipt, hrun, decoded, hdec, claim, hclaim, u, hu, g, hg, proof, hproof,
    aroot, haroot, hr⟩ := h
  rw [mgnew_identity] at hg
  cases hg
  rw [identity_hashfn] at hr
  exact ⟨prover, receipt, decoded, claim, proof, aroot, hp, hrun, hdec, hclaim, hproof,
    haroot, hr.symm⟩

/- ---------------------------------------------------------------------
   Claim theorems.
   --------------------------------------------------------------------- -/

/-- C1: for succinct receipts a and b with materialized claims satisfying the
join preconditions, the expected sequential-composition claim join computes
locally has pre = a.pre, post = b.post, exit_code = b.exit_code,
input = a.input, output = b.output, and a successful join returns a receipt
whose merged claim carries a's pre-state and input together with b's
post-state, exit code and output. -/
theorem join_composes_claims {a b : SuccinctReceipt ReceiptClaim} {run : RunOracle}
    {r : SuccinctReceipt ReceiptClaim} {av bv : ReceiptClaim}
    (ha : a.claim = .Value av) (hb : b.claim = .Value bv)
    (h : join a b run = .ok r) :
    joinExpectedClaim av bv
      = { pre := av.pre, post := bv.post, exit_code := bv.exit_code,
          input := av.input, output := bv.output } ∧
    ∃ claim_decoded merged,
      ReceiptClaim.merge claim_decoded (joinExpectedClaim av bv) = .ok merged ∧
      r.claim = .Value merged ∧
      MaybePruned.digest merged.pre = MaybePruned.digest av.pre ∧
      MaybePruned.digest merged.post = MaybePruned.digest bv.post ∧
      merged.exit_code = bv.exit_code ∧
      merged.input = av.input ∧
      merged.output = bv.output := by
  refine ⟨rfl, ?_⟩
  obtain ⟨prover, receipt, av2, bv2, cd, proof, merged, hp, hrun, hav, hbv, hcd, hproof,
    hm, hr⟩ := join_ok_inversion h
  rw [ha] at hav
  rw [hb] at hbv
  cases hav
  cases hbv
  obtain ⟨din, pp, pm, qp, qm, ec, dout, hshape⟩ := decode_ok_shape hcd
  subst hshape
  obtain ⟨pre, post, input, output, hpre, hpost, hinput, houtput, hec, hmerged⟩ :=
    mergeRC_ok_parts hm
  subst hmerged
  refine ⟨_, _, hm, by rw [hr], ?_, ?_, ?_, ?_, ?_⟩
  · simpa [joinExpectedClaim] using (mergeP_ok_digests hpre).2
  · simpa [joinExpectedClaim] using (mergeP_ok_digests hpost).2
  · simpa [joinExpectedClaim] using hec
  · simpa [joinExpectedClaim] using mergeP_pruned_left hinput
  · simpa [joinExpectedClaim] using mergeP_pruned_left houtput

/-- C2: for a conditional receipt with materialized claim, output and
non-empty assumptions list, a successful resolve returns a receipt whose
claim is the conditional claim with exactly the head assumption removed, the
tail kept in order, the journal kept, and the remaining fields unchanged. -/
theorem resolve_removes_head {C : Type} [Digestible C]
    {cond : SuccinctReceipt ReceiptClaim} {assum : SuccinctReceipt C} {run : RunOracle}
    {r : SuccinctReceipt ReceiptClaim} {cv : ReceiptClaim} {o : Output}
    {hd : MaybePruned Assumption} {tl : List (MaybePruned Assumption)}
    (hclaim : cond.claim = .Value cv)
    (hout : cv.output = .Value (some o))
    (hasm : o.assumptions = .Value ⟨hd :: tl⟩)
    (h : resolve cond assum run = .ok r) :
    ∃ merged,
      r.claim = .Value merged ∧
      merged.output = .Value (some { journal := o.journal, assumptions := .Value ⟨tl⟩ }) ∧
      merged.exit_code = cv.exit_code ∧
      MaybePruned.digest merged.pre = MaybePruned.digest cv.pre ∧
      MaybePruned.digest merged.post = MaybePruned.digest cv.post ∧
      merged.input = cv.input := by
  obtain ⟨cv2, o2, alist, tail, prover, receipt, cd, proof, merged, hcv2, hout2, halist,
    htail, hp, hrun, hcd, hproof, hm, hr⟩ := resolve_ok_inversion h
  rw [hclaim] at hcv2
  cases hcv2
  rw [hout] at hout2
  cases hout2
  rw [hasm] at halist
  cases halist
  simp only [List.tail?_cons, Option.some.injEq] at htail
  subst htail
  obtain ⟨din, pp, pm, qp, qm, ec, dout, hshape⟩ := decode_ok_shape hcd
  subst hshape
  obtain ⟨pre, post, input, output, hpre, hpost, hinput, houtput, hec, hmerged⟩ :=
    mergeRC_ok_parts hm
  subst hmerged
  refine ⟨_, by rw [hr], ?_, ?_, ?_, ?_, ?_⟩
  · simpa [resolvedClaim] using mergeP_pruned_left houtput
  · simpa [resolvedClaim] using hec
  · simpa [resolvedClaim] using (mergeP_ok_digests hpre).2
  · simpa [resolvedClaim] using (mergeP_ok_digests hpost).2
  · simpa [resolvedClaim] using mergeP_pruned_left hinput

/-- C4: every successful lift, join and resolve returns a receipt whose claim
is exactly the merge of the claim decoded from the executed program's output
stream with the locally computed expected claim (for lift, the segment
receipt claim), every intermediate decoding and merging step having
succeeded; a decode or merge failure makes the operation fail, since success
requires these equations. -/
theorem ops_merge_decoded_with_expected {seg : SegmentReceipt}
    {a b cond : SuccinctReceipt ReceiptClaim} {C : Type} [Digestible C]
    {assum : SuccinctReceipt C} {runl runj runr : RunOracle}
    {rl rj rr : SuccinctReceipt ReceiptClaim}
    (hl : lift seg runl = .ok rl) (hj : join a b runj = .ok rj)
    (hres : resolve cond assum runr = .ok rr) :
    (∃ prover receipt d m,
      Prover.new_lift seg ProverOpts.succinct = .ok prover ∧
      runl prover.program prover.input = .ok receipt ∧
      ReceiptClaim.decode receipt.output = .ok d ∧
      ReceiptClaim.merge d seg.claim = .ok m ∧ rl.claim = .Value m) ∧
    (∃ prover receipt av bv d m,
      Prover.new_join a b ProverOpts.succinct = .ok prover ∧
      runj prover.program prover.input = .ok receipt ∧
      a.claim = .Value av ∧ b.claim = .Value bv ∧
      ReceiptClaim.decode receipt.output = .ok d ∧
      ReceiptClaim.merge d (joinExpectedClaim av bv) = .ok m ∧ rj.claim = .Value m) ∧
    (∃ cv o alist tail prover receipt d m,
      cond.claim = .Value cv ∧ cv.output = .Value (some o) ∧
      o.assumptions = .Value alist ∧ alist.list.tail? = some tail ∧
      Prover.new_resolve cond assum ProverOpts.succinct = .ok prover ∧
      runr prover.program prover.input = .ok receipt ∧
      ReceiptClaim.decode receipt.output = .ok d ∧
      ReceiptClaim.merge d (resolvedClaim cv o tail) = .ok m ∧ rr.claim = .Value m) := by
  obtain ⟨p1, rec1, d1, pf1, m1, h11, h12, h13, h14, h15, h16⟩ := lift_ok_inversion hl
  obtain ⟨p2, rec2, av, bv, d2, pf2, m2, h21, h22, h23, h24, h25, h26, h27, h28⟩ :=
    join_ok_inversion hj
  obtain ⟨cv, o, alist, tail, p3, rec3, d3, pf3, m3, h31, h32, h33, h34, h35, h36, h37,
    h38, h39, h30⟩ := resolve_ok_inversion hres
  exact ⟨⟨p1, rec1, d1, m1, h11, h12, h13, h15, by rw [h16]⟩,
         ⟨p2, rec2, av, bv, d2, m2, h21, h22, h23, h24, h25, h27, by rw [h28]⟩,
         ⟨cv, o, alist, tail, p3, rec3, d3, m3, h31, h32, h33, h34, h35, h36, h37, h39,
          by rw [h30]⟩⟩

/-- C3: with the conditional receipt materialized down to the head assumption,
resolve fails with AssumptionMismatchError unless the head claim digest
matches the assumption receipt claim digest and the head control root
matches the assumption receipt control root — where a zero head control root
is the sentinel requiring the conditional receipt's own control root
instead. -/
theorem resolve_mismatched_assumption_fails {C : Type} [Digestible C]
    {cond : SuccinctReceipt ReceiptClaim} {assum : SuccinctReceipt C} {run : RunOracle}
    {cv : ReceiptClaim} {sp sq : SystemState} {o : Output} {head : Assumption}
    {tl : List (MaybePruned Assumption)} {croot aroot : Digest}
    (hch : cond.hashfn = "poseidon2") (hah : assum.hashfn = "poseidon2")
    (hclaim : cond.claim = .Value cv)
    (hpre : cv.pre = .Value sp) (hpost : cv.post = .Value sq)
    (hout : cv.output = .Value (some o))
    (hasm : o.assumptions = .Value ⟨.Value head :: tl⟩)
    (hcr : cond.control_root = .ok croot) (har : assum.control_root = .ok aroot)
    (hmm : ¬(head.claim = MaybePruned.digest assum.claim ∧
             (if head.control_root = 0 then croot else head.control_root) = aroot)) :
    resolve cond assum run = .error .AssumptionMismatchError := by
  have hnr : Prover.new_resolve cond assum ProverOpts.succinct
      = .error .AssumptionMismatchError := by
    unfold Prover.new_resolve
    rw [hch, hah]
    rw [if_pos (rfl : ("poseidon2" : String) = "poseidon2")]
    rw [if_pos (rfl : ("poseidon2" : String) = "poseidon2")]
    rw [zkr_resolve_succinct]
    simp only [exbind_ok_val]
    rw [hcr]
    simp only [exbind_ok_val]
    simp only [ProverState.add_segment_receipt, hclaim, MaybePruned.as_value, exbind_ok_val,
      ReceiptClaim.encode, hpre, hpost, expure_ok_iff, pure, Except.pure, hout, ofOption,
      hasm, List.head?_cons]
    by_cases h1 : head.claim = MaybePruned.digest assum.claim
    · rw [if_pos h1]
      rw [har]
      simp only [exbind_ok_val]
      have h2 : ¬((if head.control_root = 0 then croot else head.control_root) = aroot) :=
        fun h2 => hmm ⟨h1, h2⟩
      rw [if_neg h2]
    · rw [if_neg h1]
  unfold resolve
  rw [hclaim]
  simp only [MaybePruned.as_value, exbind_ok_val]
  rw [hout]
  simp only [MaybePruned.as_value, exbind_ok_val, ofOption]
  rw [hasm]
  simp only [MaybePruned.as_value, exbind_ok_val, List.tail?_cons, ofOption]
  rw [hnr]
  simp only [exbind_error_val]

/-- C5: contrary to the claim, resolve on a conditional receipt whose
materialized assumptions list is empty does not return EmptyAssumptionError:
the Rust Vec::drain(..1) on the empty list panics (range end out of bounds),
modelled as Abort, before the error with the message about no assumptions
can be produced. -/
theorem resolve_empty_assumptions_aborts :
    resolve condEmptyW assumReceiptW runResolveW = .error .Abort ∧
    RErr.Abort ≠ RErr.EmptyAssumptionError := ⟨by rfl, by decide⟩

/-- C6: join fails for every run oracle — so before any program runs —
unless both receipts carry the poseidon2 hashfn and their control roots
agree; when both hashfns are poseidon2 and the recomputed control roots
differ, the failure is precisely RootMismatch. -/
theorem join_precondition_failures {a b : SuccinctReceipt ReceiptClaim} {run : RunOracle} :
    (¬(a.hashfn = "poseidon2" ∧ b.hashfn = "poseidon2") → ∃ e, join a b run = .error e) ∧
    (∀ ra rb, a.hashfn = "poseidon2" → b.hashfn = "poseidon2" →
      a.control_root = .ok ra → b.control_root = .ok rb → ra ≠ rb →
      join a b run = .error .RootMismatch) := by
  constructor
  · intro hne
    have hex : ∃ e, Prover.new_join a b ProverOpts.succinct = .error e := by
      by_cases h1 : a.hashfn = "poseidon2"
      · have h2 : ¬ b.hashfn = "poseidon2" := fun h2 => hne ⟨h1, h2⟩
        refine ⟨.ConfigurationError, ?_⟩
        unfold Prover.new_join
        rw [h1, if_pos (rfl : ("poseidon2" : String) = "poseidon2"), if_neg h2]
      · refine ⟨.ConfigurationError, ?_⟩
        unfold Prover.new_join
        rw [if_neg h1]
    simp only [join]
    exact exbind_err_exists hex
  · intro ra rb h1 h2 hra hrb hne
    have hnj : Prover.new_join a b ProverOpts.succinct = .error .RootMismatch := by
      unfold Prover.new_join
      rw [h1, h2]
      rw [if_pos (rfl : ("poseidon2" : String) = "poseidon2")]
      rw [if_pos (rfl : ("poseidon2" : String) = "poseidon2")]
      rw [zkr_join_succinct]
      simp only [exbind_ok_val]
      rw [hra]
      simp only [exbind_ok_val]
      rw [hrb]
      simp only [exbind_ok_val]
      rw [if_neg hne]
    simp only [join]
    exact exbind_err hnj

/-- C7: new_lift reads po2 as the single word at the fixed offset right after
the rv32im output region of the segment's own seal, and uses exactly that
po2 to select the lift(po2) program variant (program and control id from the
catalog) and the matching rv32im inner control id, the only seal control id
it loads. -/
theorem lift_selects_program_by_po2 {seg : SegmentReceipt} {po2 : Nat} {p : ProverState}
    (hpo2 : seg.sealData.get? OUTPUT_SIZE = some po2)
    (h : Prover.new_lift seg ProverOpts.succinct = .ok p) :
    ∃ pc, zkr.lift po2 "poseidon2" = .ok pc ∧
      p.program = pc.1 ∧ p.control_id = pc.2 ∧
      p.sealControlIds = [POSEIDON2_CONTROL_IDS.getD (po2 - MIN_CYCLES_PO2) 0] := by
  unfold Prover.new_lift at h
  split at h
  case isFalse => cases h
  case isTrue hsh =>
    rw [hsh] at h
    simp only [exbind_ok_iff, expure_ok_iff, ofOption_ok_iff] at h
    obtain ⟨u, hu, g, hg, po, hpo, pc, hpc, proof, hproof, hp⟩ := h
    rw [mgnew_succinct] at hg
    cases hg
    rw [hpo2] at hpo
    cases hpo
    rw [succinct_hashfn] at hpc
    subst hp
    refine ⟨pc, hpc, ?_, ?_, ?_⟩
    · simp [add_seal_program, ProverState.add_input_digest, ProverState.add_input, Prover.new]
    · simp [add_seal_control_id, ProverState.add_input_digest, ProverState.add_input,
        Prover.new]
    · simp [add_seal_sealControlIds, ProverState.add_input_digest, ProverState.add_input,
        Prover.new]

/-- C8: a successful identity_p254 returns a receipt whose verifier
parameters are the digest of the record holding the root recomputed for the
single BN254 identity control id, the inner control root the input receipt
was proved against, and the fixed proof-system and circuit info constants. -/
theorem identity_p254_records_inner_root {a : SuccinctReceipt ReceiptClaim}
    {run : RunOracle} {r : SuccinctReceipt ReceiptClaim}
    (h : identity_p254 a run = .ok r) :
    ∃ aroot proof,
      a.control_root = .ok aroot ∧
      MerkleGroup.get_proof ⟨[BN254_IDENTITY_CONTROL_ID]⟩ BN254_IDENTITY_CONTROL_ID
        = .ok proof ∧
      r.verifier_parameters = SuccinctReceiptVerifierParameters.digest
        { control_root := proof.rootFor BN254_IDENTITY_CONTROL_ID,
          inner_control_root := some aroot,
          proof_system_info := PROOF_SYSTEM_INFO, circuit_info := CIRCUIT_INFO } := by
  obtain ⟨prover, receipt, decoded, claim, proof, aroot, hp, hrun, hdec, hclaim, hproof,
    haroot, hr⟩ := identity_ok_inversion h
  have hcid := new_identity_control_id hp
  rw [hcid] at hproof hr
  exact ⟨aroot, proof, haroot, hproof, by rw [hr]⟩

/-- C9: resolve checks — inside new_resolve, before any program is loaded or
run — that both the conditional and the assumption receipt carry the
poseidon2 hashfn; if either does not, resolve fails for every run oracle. -/
theorem resolve_requires_poseidon2 {C : Type} [Digestible C]
    {cond : SuccinctReceipt ReceiptClaim} {assum : SuccinctReceipt C} {run : RunOracle}
    (h : cond.hashfn ≠ "poseidon2" ∨ assum.hashfn ≠ "poseidon2") :
    ∃ e, resolve cond assum run = .error e := by
  have hnr : ∃ e, Prover.new_resolve cond assum ProverOpts.succinct = .error e := by
    by_cases h1 : cond.hashfn = "poseidon2"
    · have h2 : assum.hashfn ≠ "poseidon2" := by
        rcases h with h | h
        · exact absurd h1 h
        · exact h
      refine ⟨.ConfigurationError, ?_⟩
      unfold Prover.new_resolve
      rw [h1, if_pos (rfl : ("poseidon2" : String) = "poseidon2"), if_neg h2]
    · refine ⟨.ConfigurationError, ?_⟩
      unfold Prover.new_resolve
      rw [if_neg h1]
  simp only [resolve]
  apply exbind_exists_err; intro cv hcv
  apply exbind_exists_err; intro outOpt hout
  apply exbind_exists_err; intro o ho
  apply exbind_exists_err; intro alist halist
  apply exbind_exists_err; intro tail htail
  exact exbind_err_exists hnr

/-- C10: every successful lift, join and resolve carries one fixed constant
verifier-parameters digest (the default succinct record), independent of the
inputs, while identity_p254 produces verifier parameters that do depend on
its input receipt, witnessed by two runs with different results. -/
theorem succinct_ops_fixed_verifier_parameters {seg : SegmentReceipt}
    {a b cond : SuccinctReceipt ReceiptClaim} {C : Type} [Digestible C]
    {assum : SuccinctReceipt C} {runl runj runr : RunOracle}
    {rl rj rr : SuccinctReceipt ReceiptClaim}
    (hl : lift seg runl = .ok rl) (hj : join a b runj = .ok rj)
    (hres : resolve cond assum runr = .ok rr) :
    rl.verifier_parameters = SuccinctReceiptVerifierParameters.default.digest ∧
    rj.verifier_parameters = SuccinctReceiptVerifierParameters.default.digest ∧
    rr.verifier_parameters = SuccinctReceiptVerifierParameters.default.digest ∧
    (identity_p254 aW runIdW = .ok rIdW ∧ identity_p254 aW2 runIdW = .ok rIdW2 ∧
      rIdW.verifier_parameters ≠ rIdW2.verifier_parameters) := by
  obtain ⟨p1, rec1, d1, pf1, m1, h11, h12, h13, h14, h15, h16⟩ := lift_ok_inversion hl
  obtain ⟨p2, rec2, av, bv, d2, pf2, m2, h21, h22, h23, h24, h25, h26, h27, h28⟩ :=
    join_ok_inversion hj
  obtain ⟨cv, o, alist, tail, p3, rec3, d3, pf3, m3, h31, h32, h33, h34, h35, h36, h37,
    h38, h39, h30⟩ := resolve_ok_inversion hres
  exact ⟨by rw [h16], by rw [h28], by rw [h30], by rfl, by rfl, by decide⟩

/- ---------------------------------------------------------------------
   Witnesses: each hypothesis-bearing claim theorem applied at a concrete
   input of the test scenario.
   --------------------------------------------------------------------- -/

theorem join_composes_claims_witness :
    aW.claim = .Value avW ∧ bW.claim = .Value bvW ∧ join aW bW runJoinW = .ok rJoinW ∧
    (joinExpectedClaim avW bvW
        = { pre := avW.pre, post := bvW.post, exit_code := bvW.exit_code,
            input := avW.input, output := bvW.output } ∧
      ∃ claim_decoded merged,
        ReceiptClaim.merge claim_decoded (joinExpectedClaim avW bvW) = .ok merged ∧
        rJoinW.claim = .Value merged ∧
        MaybePruned.digest merged.pre = MaybePruned.digest avW.pre ∧
        MaybePruned.digest merged.post = MaybePruned.digest bvW.post ∧
        merged.exit_code = bvW.exit_code ∧
        merged.input = avW.input ∧
        merged.output = bvW.output) :=
  ⟨rfl, rfl, rfl, @join_composes_claims aW bW runJoinW rJoinW avW bvW rfl rfl rfl⟩

theorem resolve_removes_head_witness :
    condW.claim = .Value condClaimW ∧ condClaimW.output = .Value (some outW) ∧
    outW.assumptions = .Value ⟨.Value asmHeadW :: []⟩ ∧
    resolve condW assumReceiptW runResolveW = .ok rResolveW ∧
    (∃ merged,
      rResolveW.claim = .Value merged ∧
      merged.output = .Value (some { journal := outW.journal, assumptions := .Value ⟨[]⟩ }) ∧
      merged.exit_code = condClaimW.exit_code ∧
      MaybePruned.digest merged.pre = MaybePruned.digest condClaimW.pre ∧
      MaybePruned.digest merged.post = MaybePruned.digest condClaimW.post ∧
      merged.input = condClaimW.input) :=
  ⟨rfl, rfl, rfl, rfl,
    @resolve_removes_head ReceiptClaim _ condW assumReceiptW runResolveW rResolveW
      condClaimW outW (.Value asmHeadW) [] rfl rfl rfl rfl⟩

theorem resolve_mismatch_witness :
    ¬(asmHeadW.claim = MaybePruned.digest assumBadW.claim ∧
      (if asmHeadW.control_root = 0 then 77 else asmHeadW.control_root) = 77) ∧
    resolve condW assumBadW runResolveW = .error .AssumptionMismatchError :=
  ⟨by decide,
    @resolve_mismatched_assumption_fails ReceiptClaim _ condW assumBadW runResolveW
      condClaimW stA stB outW asmHeadW [] 77 77 rfl rfl rfl rfl rfl rfl rfl rfl rfl
      (by decide)⟩

theorem ops_merge_decoded_witness :
    lift segW runLiftW = .ok rLiftW ∧ join aW bW runJoinW = .ok rJoinW ∧
    resolve condW assumReceiptW runResolveW = .ok rResolveW ∧
    ((∃ prover receipt d m,
      Prover.new_lift segW ProverOpts.succinct = .ok prover ∧
      runLiftW prover.program prover.input = .ok receipt ∧
      ReceiptClaim.decode receipt.output = .ok d ∧
      ReceiptClaim.merge d segW.claim = .ok m ∧ rLiftW.claim = .Value m) ∧
    (∃ prover receipt av bv d m,
      Prover.new_join aW bW ProverOpts.succinct = .ok prover ∧
      runJoinW prover.program prover.input = .ok receipt ∧
      aW.claim = .Value av ∧ bW.claim = .Value bv ∧
      ReceiptClaim.decode receipt.output = .ok d ∧
      ReceiptClaim.merge d (joinExpectedClaim av bv) = .ok m ∧ rJoinW.claim = .Value m) ∧
    (∃ cv o alist tail prover receipt d m,
      condW.claim = .Value cv ∧ cv.output = .Value (some o) ∧
      o.assumptions = .Value alist ∧ alist.list.tail? = some tail ∧
      Prover.new_resolve condW assumReceiptW ProverOpts.succinct = .ok prover ∧
      runResolveW prover.program prover.input = .ok receipt ∧
      ReceiptClaim.decode receipt.output = .ok d ∧
      ReceiptClaim.merge d (resolvedClaim cv o tail) = .ok m ∧ rResolveW.claim = .Value m)) :=
  ⟨rfl, rfl, rfl,
    @ops_merge_decoded_with_expected segW aW bW condW ReceiptClaim _ assumReceiptW
      runLiftW runJoinW runResolveW rLiftW rJoinW rResolveW rfl rfl rfl⟩

theorem join_precondition_failures_witness :
    join aW bW78 runJoinW = .error .RootMismatch ∧
    (∃ e, join aShaW bW runJoinW = .error e) :=
  ⟨(@join_precondition_failures aW bW78 runJoinW).2 77 78 rfl rfl rfl rfl (by decide),
   (@join_precondition_failures aShaW bW runJoinW).1 (by decide)⟩

theorem lift_selects_program_witness :
    segW.sealData.get? OUTPUT_SIZE = some 14 ∧
    Prover.new_lift segW ProverOpts.succinct = .ok pLiftW ∧
    (∃ pc, zkr.lift 14 "poseidon2" = .ok pc ∧
      pLiftW.program = pc.1 ∧ pLiftW.control_id = pc.2 ∧
      pLiftW.sealControlIds = [POSEIDON2_CONTROL_IDS.getD (14 - MIN_CYCLES_PO2) 0]) :=
  ⟨rfl, rfl, @lift_selects_program_by_po2 segW 14 pLiftW rfl rfl⟩

theorem identity_p254_witness :
    identity_p254 aW runIdW = .ok rIdW ∧
    (∃ aroot proof,
      aW.control_root = .ok aroot ∧
      MerkleGroup.get_proof ⟨[BN254_IDENTITY_CONTROL_ID]⟩ BN254_IDENTITY_CONTROL_ID
        = .ok proof ∧
      rIdW.verifier_parameters = SuccinctReceiptVerifierParameters.digest
        { control_root := proof.rootFor BN254_IDENTITY_CONTROL_ID,
          inner_control_root := some aroot,
          proof_system_info := PROOF_SYSTEM_INFO, circuit_info := CIRCUIT_INFO }) :=
  ⟨rfl, @identity_p254_records_inner_root aW runIdW rIdW rfl⟩

theorem resolve_requires_poseidon2_witness :
    (aShaW.hashfn ≠ "poseidon2" ∨ assumReceiptW.hashfn ≠ "poseidon2") ∧
    (∃ e, resolve aShaW assumReceiptW runResolveW = .error e) :=
  ⟨Or.inl (by decide),
    @resolve_requires_poseidon2 ReceiptClaim _ aShaW assumReceiptW runResolveW
      (Or.inl (by decide))⟩

theorem succinct_ops_fixed_vp_witness :
    lift segW runLiftW = .ok rLiftW ∧ join aW bW runJoinW = .ok rJoinW ∧
    resolve condW assumReceiptW runResolveW = .ok rResolveW ∧
    (rLiftW.verifier_parameters = SuccinctReceiptVerifierParameters.default.digest ∧
     rJoinW.verifier_parameters = SuccinctReceiptVerifierParameters.default.digest ∧
     rResolveW.verifier_parameters = SuccinctReceiptVerifierParameters.default.digest ∧
     (identity_p254 aW runIdW = .ok rIdW ∧ identity_p254 aW2 runIdW = .ok rIdW2 ∧
       rIdW.verifier_parameters ≠ rIdW2.verifier_parameters)) :=
  ⟨rfl, rfl, rfl,
    @succinct_ops_fixed_verifier_parameters segW aW bW condW ReceiptClaim _ assumReceiptW
      runLiftW runJoinW runResolveW rLiftW rJoinW rResolveW rfl rfl rfl⟩

end Risc0
